import Mathlib

/-!
Verification development for the feedie RSS-to-IRC announcer
(`feedie.py`).  The definitions below are a shallow embedding of the
parts of the program the claims are about:

* `_Feeds.getHeadlines`, `_Feeds.getFeed`, `_Feeds.feed_refresh`
  (fetch caching, failure fallback, and the new-entry diff loop),
* `_Feeds.shorten_url`,
* `ReconnectStrategy.run` (jittered exponential backoff),
* `feedie.msq_queue_tasks` (the delivery-queue consumer loop), and
* `PeriodicExecutor.run` (the per-feed timer loop).

Python runtime errors (`NameError`/`UnboundLocalError`, `KeyError`,
`IndexError`, `TypeError`, `AttributeError`) are modelled explicitly
with an `Except PyErr` result wherever the source can raise, since
several claims hinge on exactly which accesses can fail.  Time values
(`time.time()`) are modelled as integers; feedparser `struct_time`
timestamps are totally ordered 9-tuples and are order-embedded as
natural numbers, which is faithful for the single `>=` comparison the
source performs on them.  Dictionary keys that may be absent are
modelled as `Option` (conflating an absent key with a `None` value,
which the source treats identically in every modelled access).
-/

/-- Python runtime errors that the modelled code can raise. -/
inductive PyErr where
  | nameError
  | keyError
  | indexError
  | typeError
  | attributeError
  deriving DecidableEq, Repr

/-- Exception classes distinguished by the `except` clauses of
`_Feeds.getFeed`: `sgmllib.SGMLParseError`, `socket.timeout`, and the
catch-all `Exception` branch that is passed through. -/
inductive FetchErr where
  | sgml
  | timeout
  | other
  deriving DecidableEq, Repr

/-- One feedparser item: the `title`, `link`, `updated_parsed` and
`published_parsed` keys read by the source; each may be absent. -/
structure Entry where
  title : Option String
  link : Option String
  updated_parsed : Option Nat
  published_parsed : Option Nat
  deriving DecidableEq, Repr

/-- A feedparser result dictionary.  `items` is the entry list (the
`items` and `entries` keys of a real parsed result alias the same
list).  `entriesPresent` records whether the `entries` key exists:
it is true for every real parsed result and false for the synthetic
error dictionaries built by `getFeed`, which only carry `items`.
`feedNonEmpty` is the truthiness of `results.get('feed', {})`. -/
structure ParseResult where
  items : List Entry
  entriesPresent : Bool
  feedNonEmpty : Bool
  deriving DecidableEq, Repr

/-- Outcome of `feedparser.parse(url)` together with the exception
(if any) raised out of the bozo check, as classified by the `except`
clauses of `getFeed`. -/
structure Fetched where
  result : ParseResult
  err : Option FetchErr
  deriving DecidableEq, Repr

/-- Per-feed slots of the `_Feeds` instance state: `cachedFeeds[name]`
and `lastRequest[name]` (absent before first assignment). -/
structure FeedState where
  cachedFeeds : Option ParseResult
  lastRequest : Option Int
  deriving DecidableEq, Repr

/-- A headline as built by `getHeadlines`: `(title, link-or-None)`. -/
abbrev Headline := String × Option String

/-- A canonical headline key: lowercased whitespace-split title words
paired with the link. -/
abbrev CanonKey := List String × Option String

/-- Truthiness of a Python string-or-None value (`if link:`):
false for `None` and for the empty string. -/
def pyTruthy : Option String → Bool
  | none => false
  | some s => !(s == "")

/-- Helper for `getHeadlines`: the headline produced for one item,
or `none` for an item without a `title` key. -/
def mkHeadline (d : Entry) : Option Headline :=
  match d.title with
  | none => none
  | some t => some (t, if pyTruthy d.link then d.link else none)

/-- Body of `_Feeds.getHeadlines`: walk the items in order, keeping
`(title, link)` for titled items with a truthy link and
`(title, None)` for titled items without one; untitled items are
skipped. -/
def getHeadlinesL : List Entry → List Headline
  | [] => []
  | d :: rest =>
    match d.title with
    | some t => (t, if pyTruthy d.link then d.link else none) :: getHeadlinesL rest
    | none => getHeadlinesL rest

/-- `_Feeds.getHeadlines(feed)`: reads `feed['items']`. -/
def getHeadlines (feed : ParseResult) : List Headline :=
  getHeadlinesL feed.items

/-- Lowercase a string character by character (`str.lower()`). -/
def lowerStr (s : String) : String :=
  String.mk (s.data.map Char.toLower)

/-- Whitespace tokenizer matching Python `str.split()` with no
arguments: split on runs of whitespace, dropping empty tokens.
The accumulator holds the current token in reverse. -/
def splitWSAux : List Char → List Char → List String
  | [], acc => if acc.isEmpty then [] else [String.mk acc.reverse]
  | c :: cs, acc =>
    if c.isWhitespace then
      if acc.isEmpty then splitWSAux cs [] else String.mk acc.reverse :: splitWSAux cs []
    else
      splitWSAux cs (c :: acc)

/-- Python `s.split()`. -/
def splitWS (s : String) : List String :=
  splitWSAux s.data []

/-- The nested `canonize(headline)` of `feed_refresh`:
`(tuple(headline[0].lower().split()), headline[1])`. -/
def canonize (h : Headline) : CanonKey :=
  (splitWS (lowerStr h.1), h.2)

/-- The nested `error(s)` helper of `getFeed`: builds the plain
dictionary `{'items': [{'title': s}]}` — it has no `entries` key and
no `feed` key. -/
def errorResult (s : String) : ParseResult :=
  { items := [{ title := some s, link := none,
                updated_parsed := none, published_parsed := none }],
    entriesPresent := false,
    feedNonEmpty := false }

/-- `_Feeds.getFeed(url, name)` as a function of the per-feed state,
the current time, and the fetch outcome; returns the result handed to
the caller together with the updated state.  On `SGMLParseError` or
`socket.timeout` the synthetic result is returned immediately (state
untouched).  Otherwise a non-empty parse is cached with
`lastRequest = now`; then the cached value is returned if present,
and if not, `lastRequest` is set to `now - 0.5 * 180` and the
synthetic `Unable to download feed.` result is returned. -/
def getFeed (st : FeedState) (now : Int) (f : Fetched) : ParseResult × FeedState :=
  match f.err with
  | some FetchErr.sgml => (errorResult "Invalid (unparsable) RSS feed.", st)
  | some FetchErr.timeout => (errorResult "Timeout downloading feed.", st)
  | _ =>
    let st1 : FeedState :=
      if f.result.feedNonEmpty then
        { cachedFeeds := some f.result, lastRequest := some now }
      else st
    match st1.cachedFeeds with
    | some c => (c, st1)
    | none =>
      (errorResult "Unable to download feed.",
       { cachedFeeds := none, lastRequest := some (now - 90) })

instance {ε α : Type} [DecidableEq ε] [DecidableEq α] : DecidableEq (Except ε α) := fun x y => by
  cases x <;> cases y
  case error.error a b => exact decidable_of_iff (a = b) (by simp)
  case error.ok a b => exact isFalse (by simp)
  case ok.error a b => exact isFalse (by simp)
  case ok.ok a b => exact decidable_of_iff (a = b) (by simp)

/-- Python `d.get(k, default)` on an optional value: the stored value
if the key is present, else the fallback. -/
def pyFirst : Option Nat → Option Nat → Option Nat
  | some v, _ => some v
  | none, fb => fb

/-- Python `a >= b` on two optional timestamps: comparing with `None`
on either side raises `TypeError`. -/
def pyGe : Option Nat → Option Nat → Except PyErr Bool
  | some a, some b => Except.ok (decide (b ≤ a))
  | _, _ => Except.error PyErr.typeError

/-- Subscript `r['entries'][i]`: `KeyError` if the dictionary has no
`entries` key (the synthetic error results), `IndexError` if the
index is out of range. -/
def entryAt (r : ParseResult) (i : Nat) : Except PyErr Entry :=
  if r.entriesPresent then
    match r.items[i]? with
    | some e => Except.ok e
    | none => Except.error PyErr.indexError
  else
    Except.error PyErr.keyError

/-- Body of one iteration of the marking loop of `feed_refresh`
(lines 215-221): read `oldresults['entries'][i]` (a `NameError` if
`oldresults` was never bound) and `newresults['entries'][i]`, compute
`time_old = entry_old.get('updated_parsed', entry_new.get('published_parsed'))`
and
`time_new = entry_new.get('updated_parsed', entry_new.get('published_parsed'))`,
then decide `canonize(headline) in oldheadlines and time_old >= time_new`;
by short-circuiting, the timestamp comparison (and hence its possible
`TypeError`) is only evaluated when the key is in the old set. -/
def excludedAt : Option ParseResult → ParseResult → List CanonKey → Nat → Headline →
    Except PyErr Bool
  | none, _, _, _, _ => Except.error PyErr.nameError
  | some oldR, newR, oldKeys, i, h =>
    match entryAt oldR i with
    | Except.error e => Except.error e
    | Except.ok entry_old =>
      match entryAt newR i with
      | Except.error e => Except.error e
      | Except.ok entry_new =>
        let time_old := pyFirst entry_old.updated_parsed entry_new.published_parsed
        let time_new := pyFirst entry_new.updated_parsed entry_new.published_parsed
        if canonize h ∈ oldKeys then pyGe time_old time_new
        else Except.ok false

/-- The marking loop of `feed_refresh`: for each position `i`, replace
`newheadlines[i]` by `None` when the iteration body decides the entry
was already seen.  The resulting list keeps the original length, with
`none` standing for Python `None`. -/
def markLoop (oldOpt : Option ParseResult) (newR : ParseResult)
    (oldKeys : List CanonKey) : Nat → List Headline → Except PyErr (List (Option Headline))
  | _, [] => Except.ok []
  | i, h :: t =>
    match excludedAt oldOpt newR oldKeys i h with
    | Except.error e => Except.error e
    | Except.ok exc =>
      match markLoop oldOpt newR oldKeys (i + 1) t with
      | Except.error e => Except.error e
      | Except.ok rest => Except.ok ((if exc then none else some h) :: rest)

/-- An announcement produced by `feed_refresh`: the headline title and
the raw link value `newresults['entries'][i].get('link', 'no_url')`
that the source passes to `shorten_url` before formatting and
enqueueing.  Colors, underlining, URL wrapping and channel resolution
are presentation details applied to these two fields. -/
structure Announce where
  title : String
  rawLink : String
  deriving DecidableEq, Repr

/-- The announcement loop of `feed_refresh` (lines 224-241): skip
markers, skip headlines with a falsy link, and announce the title
paired with `newresults['entries'][i].get('link', 'no_url')`. -/
def announceLoop (newR : ParseResult) : Nat → List (Option Headline) → Except PyErr (List Announce)
  | _, [] => Except.ok []
  | i, none :: t => announceLoop newR (i + 1) t
  | i, some hl :: t =>
    if pyTruthy hl.2 then
      match entryAt newR i with
      | Except.error e => Except.error e
      | Except.ok en =>
        match announceLoop newR (i + 1) t with
        | Except.error e => Except.error e
        | Except.ok rest =>
          Except.ok ({ title := hl.1,
                       rawLink := match en.link with | some s => s | none => "no_url" } :: rest)
    else
      announceLoop newR (i + 1) t

/-- `_Feeds.feed_refresh(feed, name)` for one tick of one feed, as a
function of `startup_announces`, the per-feed state, the current time
and the fetch outcome.  Returns the announcements that reach
`on_rss_entry` (in order) together with the updated per-feed state,
or the Python exception that propagates out of the method. -/
def feed_refresh (startup_announces : Bool) (st : FeedState) (now : Int)
    (f : Fetched) : Except PyErr (List Announce × FeedState) :=
  let oldresults := st.cachedFeeds
  let oldheadlines :=
    match oldresults with
    | some r => getHeadlines r
    | none => []
  if !startup_announces && oldheadlines.isEmpty then
    Except.ok ([], (getFeed st now f).2)
  else
    let fetched := getFeed st now f
    let newresults := fetched.1
    let st' := fetched.2
    let newheadlines := getHeadlines newresults
    let failGuard :=
      match newheadlines with
      | [hl] => hl.1 == "Timeout downloading feed." || hl.1 == "Unable to download feed."
      | _ => false
    if failGuard then
      Except.ok ([], st')
    else
      let oldKeys := oldheadlines.map canonize
      match markLoop oldresults newresults oldKeys 0 newheadlines with
      | Except.error e => Except.error e
      | Except.ok marked =>
        if marked.isEmpty then
          Except.ok ([], st')
        else
          match announceLoop newresults 0 marked with
          | Except.error e => Except.error e
          | Except.ok anns => Except.ok (anns, st')

/-- Exception classes caught by the `except` clause of `shorten_url`:
`requests.ConnectionError`, `requests.HTTPError`, `requests.Timeout`. -/
inductive RequestsErr where
  | connectionError
  | httpError
  | timeoutErr
  deriving DecidableEq, Repr

/-- `_Feeds.shorten_url(long_url)` as a function of the configured
service URL and the outcome of `requests.get`.  With no service
configured the original URL is returned without any request.  When
the request raises one of the three caught exception classes, the
handler first executes `print('%s:%s' % (error.code, error.msg))`;
the `requests` exception classes define neither a `code` nor a `msg`
attribute, so this line raises `AttributeError` before the
`return long_url` below it is reached, and that `AttributeError`
propagates out of `shorten_url`. -/
def shorten_url (service_url : Option String) (long_url : String)
    (response : Except RequestsErr String) : Except PyErr String :=
  match service_url with
  | none => Except.ok long_url
  | some _ =>
    match response with
    | Except.ok text => Except.ok text
    | Except.error _ => Except.error PyErr.attributeError

/-- The pre-jitter backoff bound of `ReconnectStrategy.run`:
`min(2**attempt_count - 1, max_interval)`. -/
def preJitter (max_interval : Nat) (attempt_count : Nat) : Nat :=
  min (2 ^ attempt_count - 1) max_interval

/-- The scheduled delay of `ReconnectStrategy.run`:
`max(int(preJitter * random.random()), min_interval)`.  The jitter
`random.random()` is a real number in `[0, 1)`, modelled as a
rational; `int(...)` truncates the non-negative product, which is the
floor. -/
def backoffDelay (min_interval max_interval : Nat) (attempt_count : Nat) (jitter : ℚ) : Int :=
  max ⌊jitter * (preJitter max_interval attempt_count : ℚ)⌋ (min_interval : Int)

/-- Observable actions of one iteration of the delivery-queue
consumer `feedie.msq_queue_tasks`.  `jumpedServer` stands for the
call `self.jump_server()` (disconnect if connected, then an immediate
inline `_connect`); `calledOnDisconnect` stands for a call into the
backoff supervisor `self.recon.run(self)`, which only the
`on_disconnect` event handler performs. -/
inductive Effect where
  | sent (target msg : String)
  | logged
  | jumpedServer
  | calledOnDisconnect
  | slept
  deriving DecidableEq, Repr

/-- One iteration body of `msq_queue_tasks` after `queue.get()`
returned `item = (msg, target)`: try `connection.privmsg`, which
raises `ServerNotConnectedError` exactly when the connection is down;
on that exception, log and call `self.jump_server()`; in either case
sleep the pacing delay afterwards. -/
def msq_queue_step (item : String × String) (connected : Bool) : List Effect :=
  if connected then [Effect.sent item.2 item.1, Effect.slept]
  else [Effect.logged, Effect.jumpedServer, Effect.slept]

/-- `feedie.msq_queue_tasks` draining a backlog of queued messages:
iteration `k` pops the next message and runs the iteration body with
the connection state at that iteration.  (`queue.get()` blocks on an
empty queue, so the model stops with an exhausted backlog.) -/
def msq_queue_tasks (connectedAt : Nat → Bool) : Nat → List (String × String) → List Effect
  | _, [] => []
  | k, item :: rest => msq_queue_step item (connectedAt k) ++ msq_queue_tasks connectedAt (k + 1) rest

/-- Outcome of one call of the timer callback inside
`PeriodicExecutor.run`: it either returns or raises. -/
inductive TickOutcome where
  | ok
  | raises
  deriving DecidableEq, Repr

/-- Outcome of `PeriodicExecutor.run`, with the number of callback
invocations completed before the loop ended: `stopped` via the
`_finished` event, `crashed` by an exception propagating out of the
callback (the loop body has no try/except), or `fuelOut` when the
modelled number of observed iterations is exhausted while the thread
is still looping. -/
inductive RunOutcome where
  | stopped (ticksDone : Nat)
  | crashed (ticksDone : Nat)
  | fuelOut (ticksDone : Nat)
  deriving DecidableEq, Repr

/-- `PeriodicExecutor.run`: loop forever; each iteration first checks
the `_finished` event, then calls `self._func(**self._params)` with
no exception handling, then waits for the interval.  `finished j` and
`tick j` give the flag and the callback outcome at iteration `j`;
`fuel` bounds how many iterations are observed. -/
def PeriodicExecutor_run (finished : Nat → Bool) (tick : Nat → TickOutcome) :
    Nat → Nat → RunOutcome
  | 0, done => RunOutcome.fuelOut done
  | fuel + 1, done =>
    if finished done then RunOutcome.stopped done
    else
      match tick done with
      | TickOutcome.raises => RunOutcome.crashed done
      | TickOutcome.ok => PeriodicExecutor_run finished tick fuel (done + 1)

/-- C2, counterexample.  The claim says that on unparsable content the
synthetic `Invalid (unparsable) RSS feed.` result is returned only
when no prior cache exists, and that with a prior good cache `getFeed`
returns the cached result instead.  With a cached good result present,
`getFeed` on an `SGMLParseError` still returns the synthetic result,
not the cache: the `except sgmllib.SGMLParseError` clause returns
immediately without consulting `self.cachedFeeds`. -/
theorem claim_C2_counterexample :
    getFeed
        { cachedFeeds := some { items := [{ title := some "Old", link := some "http://x/1",
                                            updated_parsed := some 1, published_parsed := some 1 }],
                                entriesPresent := true, feedNonEmpty := true },
          lastRequest := some 50 } 60
        { result := { items := [], entriesPresent := true, feedNonEmpty := false },
          err := some FetchErr.sgml }
      = (errorResult "Invalid (unparsable) RSS feed.",
         { cachedFeeds := some { items := [{ title := some "Old", link := some "http://x/1",
                                             updated_parsed := some 1, published_parsed := some 1 }],
                                 entriesPresent := true, feedNonEmpty := true },
           lastRequest := some 50 })
  ∧ errorResult "Invalid (unparsable) RSS feed."
      ≠ { items := [{ title := some "Old", link := some "http://x/1",
                      updated_parsed := some 1, published_parsed := some 1 }],
          entriesPresent := true, feedNonEmpty := true } := by decide

/-- C2, amended: for every feed whose fetch yields unparsable content
(`SGMLParseError`), `getFeed` returns the synthetic result whose single
entry is titled `Invalid (unparsable) RSS feed.` regardless of whether
a prior cache exists, and the per-feed state is left untouched, so the
synthetic result is never stored as the feed's cached content. -/
theorem claim_C2 (st : FeedState) (now : Int) (f : Fetched)
    (h : f.err = some FetchErr.sgml) :
    getFeed st now f = (errorResult "Invalid (unparsable) RSS feed.", st) := by
  obtain ⟨r, e⟩ := f
  simp only at h
  subst h
  rfl

/-- Witness for `claim_C2` at a concrete input. -/
theorem claim_C2_witness :
    getFeed { cachedFeeds := none, lastRequest := none } 0
        { result := { items := [], entriesPresent := true, feedNonEmpty := false },
          err := some FetchErr.sgml }
      = (errorResult "Invalid (unparsable) RSS feed.",
         { cachedFeeds := none, lastRequest := none }) :=
  claim_C2 _ 0 _ rfl

/-- C3, counterexample.  The claim says that an empty fetch result with
a prior cache makes `getFeed` return the cached result with the
last-attempt timestamp shifted backward.  With a cache present the
backward shift never happens: `return self.cachedFeeds[name]` succeeds
and the `except KeyError` branch that rewrites `self.lastRequest` is
not reached, so `lastRequest` stays at its old value `1000` instead of
being moved back. -/
theorem claim_C3_counterexample :
    getFeed
        { cachedFeeds := some { items := [{ title := some "Old", link := some "http://x/1",
                                            updated_parsed := some 1, published_parsed := some 1 }],
                                entriesPresent := true, feedNonEmpty := true },
          lastRequest := some 1000 } 2000
        { result := { items := [], entriesPresent := true, feedNonEmpty := false }, err := none }
      = ({ items := [{ title := some "Old", link := some "http://x/1",
                       updated_parsed := some 1, published_parsed := some 1 }],
           entriesPresent := true, feedNonEmpty := true },
         { cachedFeeds := some { items := [{ title := some "Old", link := some "http://x/1",
                                             updated_parsed := some 1, published_parsed := some 1 }],
                                 entriesPresent := true, feedNonEmpty := true },
           lastRequest := some 1000 })
  ∧ some (1000 : Int) ≠ some (2000 - 90 : Int) := by decide

/-- C3, amended: when the fetch/parse yields an empty result (neither
timeout nor unparsable), `getFeed` does not update the cache; if a
previous cache exists it returns the cached result with the per-feed
state (including the last-attempt timestamp) unchanged, and only if no
previous cache exists does it return the synthetic
`Unable to download feed.` result with the last-attempt timestamp set
backward to `now - 0.5 * 180`. -/
theorem claim_C3 (st : FeedState) (now : Int) (f : Fetched)
    (herr : f.err = none ∨ f.err = some FetchErr.other)
    (hempty : f.result.feedNonEmpty = false) :
    (∀ c, st.cachedFeeds = some c → getFeed st now f = (c, st)) ∧
    (st.cachedFeeds = none →
      getFeed st now f
        = (errorResult "Unable to download feed.",
           { cachedFeeds := none, lastRequest := some (now - 90) })) := by
  obtain ⟨r, e⟩ := f
  simp only at hempty herr
  constructor
  · intro c hc
    rcases herr with h | h <;> subst h <;> simp [getFeed, hempty, hc]
  · intro hc
    rcases herr with h | h <;> subst h <;> simp [getFeed, hempty, hc]

/-- Witness for `claim_C3` at a concrete input (no prior cache). -/
theorem claim_C3_witness :
    getFeed { cachedFeeds := none, lastRequest := some 7 } 100
        { result := { items := [], entriesPresent := true, feedNonEmpty := false }, err := none }
      = (errorResult "Unable to download feed.",
         { cachedFeeds := none, lastRequest := some (100 - 90) }) :=
  (claim_C3 _ 100 _ (Or.inl rfl) rfl).2 rfl

/-- C4: with startup announcements enabled and no prior cached result,
the claim says the tick announces the link-bearing entries of the
newly fetched result.  The code instead raises `UnboundLocalError`
(`NameError` at runtime): on the no-cache path `oldresults` is never
assigned (only `oldheadlines = []` is set in the `except KeyError`
handler), yet the diff loop reads `oldresults['entries'][i]` as soon
as the new result has at least one titled entry.  This theorem
evaluates the embedded `feed_refresh` at the failing input: startup
announcements on, empty cache, and a successfully parsed feed with one
titled, linked entry. -/
theorem claim_C4_eval :
    feed_refresh true { cachedFeeds := none, lastRequest := none } 5
        { result := { items := [{ title := some "A", link := some "http://x/1",
                                  updated_parsed := none, published_parsed := some 3 }],
                      entriesPresent := true, feedNonEmpty := true },
          err := none }
      = Except.error PyErr.nameError := by decide

/-- C7: the claim says a failing shortening request degrades to
returning the original URL.  The code's `except` handler first logs
`error.code` and `error.msg`, attributes that the caught
`requests` exception classes do not define, so the handler itself
raises `AttributeError` and the `return long_url` after the log line
is never reached.  The no-service-configured half of the claim does
hold: with `service_url = None` the original URL is returned without
any request.  This theorem evaluates the embedded `shorten_url` at the
failing input (service configured, request raises
`requests.ConnectionError`) and at the configured-off input. -/
theorem claim_C7_eval :
    shorten_url (some "https://v.gd/create.php?format=simple&") "http://example.org/long/path"
        (Except.error RequestsErr.connectionError) = Except.error PyErr.attributeError
  ∧ shorten_url none "http://example.org/long/path" (Except.error RequestsErr.connectionError)
      = Except.ok "http://example.org/long/path" := by decide

/-- Helper for C9: whenever the headlines of the fetched result form a
single headline with a synthetic failure title, `feed_refresh` returns
no announcements and leaves the state exactly as `getFeed` left it. -/
lemma feed_refresh_failGuard (cfg : Bool) (st : FeedState) (now : Int) (f : Fetched)
    (t : String) (l : Option String)
    (hhl : getHeadlines (getFeed st now f).1 = [(t, l)])
    (ht : t = "Timeout downloading feed." ∨ t = "Unable to download feed.") :
    feed_refresh cfg st now f = Except.ok ([], (getFeed st now f).2) := by
  simp only [feed_refresh]
  split
  · rfl
  · rw [hhl]
    rcases ht with rfl | rfl <;> simp

/-- C9: (1) when a fetch raises `socket.timeout` and the feed has no
prior cache, `getFeed` returns the synthetic result whose single entry
is titled `Timeout downloading feed.` with the state unchanged, and
(2) for every poll whose fetched result has exactly one headline
titled `Timeout downloading feed.` or `Unable to download feed.`, the
diff in `feed_refresh` treats the poll as a failure: it announces
nothing and adds no marking of its own — the returned state is exactly
the state `getFeed` produced. -/
theorem claim_C9 :
    (∀ (now : Int) (f : Fetched), f.err = some FetchErr.timeout →
        getFeed { cachedFeeds := none, lastRequest := none } now f
          = (errorResult "Timeout downloading feed.",
             { cachedFeeds := none, lastRequest := none }))
  ∧ (∀ (cfg : Bool) (st : FeedState) (now : Int) (f : Fetched) (t : String) (l : Option String),
        getHeadlines (getFeed st now f).1 = [(t, l)] →
        t = "Timeout downloading feed." ∨ t = "Unable to download feed." →
        feed_refresh cfg st now f = Except.ok ([], (getFeed st now f).2)) := by
  constructor
  · intro now f h
    obtain ⟨r, e⟩ := f
    simp only at h
    subst h
    rfl
  · intro cfg st now f t l hhl ht
    exact feed_refresh_failGuard cfg st now f t l hhl ht

/-- Witness for `claim_C9` at a concrete input: a timed-out fetch with
no prior cache, followed by the diff on the returned result. -/
theorem claim_C9_witness :
    getFeed { cachedFeeds := none, lastRequest := none } 0
        { result := { items := [], entriesPresent := true, feedNonEmpty := false },
          err := some FetchErr.timeout }
      = (errorResult "Timeout downloading feed.",
         { cachedFeeds := none, lastRequest := none })
  ∧ feed_refresh true { cachedFeeds := none, lastRequest := none } 0
        { result := { items := [], entriesPresent := true, feedNonEmpty := false },
          err := some FetchErr.timeout }
      = Except.ok ([], { cachedFeeds := none, lastRequest := none }) :=
  ⟨claim_C9.1 0 _ rfl,
   claim_C9.2 true _ 0 _ "Timeout downloading feed." none (by decide) (Or.inl rfl)⟩

/-- C6, counterexample.  The claim says that when a send fails because
the connection is down, the consumer triggers the reconnect
supervisor's `onDisconnect` (backoff scheduling).  In the code the
`except irc.client.ServerNotConnectedError` handler of
`msq_queue_tasks` calls `self.jump_server()` — an immediate inline
reconnect — and never calls into `ReconnectStrategy`: on a concrete
run with the connection down, the observed effects contain
`jumpedServer` and do not contain `calledOnDisconnect`. -/
theorem claim_C6_counterexample :
    Effect.calledOnDisconnect ∉ msq_queue_tasks (fun _ => false) 0 [("hello", "#chan")]
  ∧ Effect.jumpedServer ∈ msq_queue_tasks (fun _ => false) 0 [("hello", "#chan")] := by decide

/-- C6, amended: whenever `connection.privmsg` raises
`ServerNotConnectedError` in the delivery-queue consumer loop, the
consumer logs the failure and calls `jump_server` — an immediate
inline reconnect (disconnect if connected, then `_connect`), not the
backoff-scheduling reconnect supervisor — then sleeps the pacing delay,
drops that message and proceeds to the next queued message. -/
theorem claim_C6 (connectedAt : Nat → Bool) (k : Nat) (item : String × String)
    (rest : List (String × String)) (h : connectedAt k = false) :
    msq_queue_tasks connectedAt k (item :: rest)
      = Effect.logged :: Effect.jumpedServer :: Effect.slept
          :: msq_queue_tasks connectedAt (k + 1) rest
  ∧ Effect.calledOnDisconnect ∉ msq_queue_step item (connectedAt k) := by
  constructor
  · show msq_queue_step item (connectedAt k) ++ _ = _
    rw [h]
    rfl
  · rw [h]
    simp [msq_queue_step]

/-- Witness for `claim_C6` at a concrete input. -/
theorem claim_C6_witness :
    msq_queue_tasks (fun _ => false) 0 [("hello", "#chan"), ("next", "#chan")]
      = Effect.logged :: Effect.jumpedServer :: Effect.slept
          :: msq_queue_tasks (fun _ => false) 1 [("next", "#chan")]
  ∧ Effect.calledOnDisconnect ∉ msq_queue_step ("hello", "#chan") ((fun _ => false) 0) :=
  claim_C6 (fun _ => false) 0 ("hello", "#chan") [("next", "#chan")] rfl

/-- C5: for attempt counts in `1..20`, any jitter in `[0, 1)` and any
backoff bounds with `min_interval ≤ max_interval` (the constructor
asserts `0 <= min_interval <= max_interval`), the delay scheduled by
`ReconnectStrategy.run` lies within `[min_interval, max_interval]`,
and the pre-jitter bound `min(2 ** n - 1, max_interval)` is
non-decreasing in the attempt count until clamped at `max_interval`. -/
theorem claim_C5 (min_interval max_interval attempt_count : Nat) (jitter : ℚ)
    (hmm : min_interval ≤ max_interval)
    (h1 : 1 ≤ attempt_count) (h20 : attempt_count ≤ 20)
    (hj0 : 0 ≤ jitter) (hj1 : jitter < 1) :
    ((min_interval : Int) ≤ backoffDelay min_interval max_interval attempt_count jitter
      ∧ backoffDelay min_interval max_interval attempt_count jitter ≤ (max_interval : Int))
  ∧ preJitter max_interval attempt_count ≤ preJitter max_interval (attempt_count + 1) := by
  refine ⟨⟨le_max_right _ _, ?_⟩, ?_⟩
  · apply max_le
    · have hb : (0 : ℚ) ≤ (preJitter max_interval attempt_count : ℚ) := by positivity
      have hle : jitter * (preJitter max_interval attempt_count : ℚ)
          ≤ (preJitter max_interval attempt_count : ℚ) :=
        mul_le_of_le_one_left hb (le_of_lt hj1)
      calc ⌊jitter * (preJitter max_interval attempt_count : ℚ)⌋
          ≤ ⌊(preJitter max_interval attempt_count : ℚ)⌋ := Int.floor_le_floor hle
        _ = (preJitter max_interval attempt_count : Int) := Int.floor_natCast _
        _ ≤ (max_interval : Int) := by
            exact_mod_cast Nat.min_le_right (2 ^ attempt_count - 1) max_interval
    · exact_mod_cast hmm
  · unfold preJitter
    exact min_le_min (Nat.sub_le_sub_right (Nat.pow_le_pow_right (by norm_num) (Nat.le_succ _)) 1)
      le_rfl

/-- Witness for `claim_C5` at a concrete input. -/
theorem claim_C5_witness :
    (((60 : Nat) : Int) ≤ backoffDelay 60 300 3 (1 / 2)
      ∧ backoffDelay 60 300 3 (1 / 2) ≤ ((300 : Nat) : Int))
  ∧ preJitter 300 3 ≤ preJitter 300 (3 + 1) :=
  ⟨(claim_C5 60 300 3 (1 / 2) (by norm_num) (by norm_num) (by norm_num) (by norm_num)
      (by norm_num)).1,
   (claim_C5 60 300 3 (1 / 2) (by norm_num) (by norm_num) (by norm_num) (by norm_num)
      (by norm_num)).2⟩

/-- Helper for C1: positional characterization of the marking loop.
If the loop starting at index `i` completes without a Python error,
then the output at offset `j` is the input headline, replaced by
`None` exactly when the iteration body at index `i + j` decided the
entry was already seen. -/
lemma markLoop_char (oldOpt : Option ParseResult) (newR : ParseResult) (keys : List CanonKey) :
    ∀ (hs : List Headline) (i : Nat) (out : List (Option Headline)),
      markLoop oldOpt newR keys i hs = Except.ok out →
      ∀ (j : Nat) (h : Headline), hs[j]? = some h →
        ∃ exc, excludedAt oldOpt newR keys (i + j) h = Except.ok exc ∧
               out[j]? = some (if exc then none else some h) := by
  intro hs
  induction hs with
  | nil =>
    intro i out hmk j h hj
    simp at hj
  | cons h0 t ih =>
    intro i out hmk j h hj
    rw [markLoop] at hmk
    cases hexc : excludedAt oldOpt newR keys i h0 with
    | error e => rw [hexc] at hmk; cases hmk
    | ok exc0 =>
      rw [hexc] at hmk
      cases hrest : markLoop oldOpt newR keys (i + 1) t with
      | error e => rw [hrest] at hmk; cases hmk
      | ok rest =>
        rw [hrest] at hmk
        have hout : out = (if exc0 then none else some h0) :: rest := by
          cases hmk; rfl
        subst hout
        cases j with
        | zero =>
          have hh : h0 = h := by simpa using hj
          subst hh
          exact ⟨exc0, hexc, by simp⟩
        | succ n =>
          obtain ⟨exc, hx, ho⟩ := ih (i + 1) rest hrest n h (by simpa using hj)
          refine ⟨exc, ?_, by simpa using ho⟩
          have harith : i + 1 + n = i + (n + 1) := by omega
          rwa [harith] at hx

/-- C1, counterexample.  The claim says an entry of `new` at position
`i` is excluded exactly when its canonical key is in the old key set
and the OLD entry at position `i` has an update/publish timestamp at
least the new entry's.  Here the old entry carries only
`published_parsed = 5` (no `updated_parsed`) and the same-key new
entry has `published_parsed = 10`; per the claim the old timestamp 5
is older than 10, so the entry must be kept.  The code excludes it:
`time_old = entry_old.get('updated_parsed', entry_new.get('published_parsed'))`
falls back to the NEW entry's publish time, making
`time_old = time_new = 10` and the `>=` test succeed. -/
theorem claim_C1_counterexample :
    markLoop
        (some { items := [{ title := some "a", link := some "l",
                            updated_parsed := none, published_parsed := some 5 }],
                entriesPresent := true, feedNonEmpty := true })
        { items := [{ title := some "a", link := some "l",
                      updated_parsed := none, published_parsed := some 10 }],
          entriesPresent := true, feedNonEmpty := true }
        [(["a"], some "l")] 0 [("a", some "l")]
      = Except.ok [none]
  ∧ (5 : Nat) < 10 := by decide

/-- C1, amended: whenever the filtering loop of `feed_refresh`
completes without a Python error, the entry of `new` at headline
position `j` is excluded (marked `None`) exactly when its canonical
key is in the old key set and `time_old >= time_new`, where
`time_old` is the old entry-at-`j`'s `updated_parsed` falling back to
the NEW entry's `published_parsed`, and `time_new` is the new
entry-at-`j`'s `updated_parsed` falling back to its own
`published_parsed`.  (The loop presupposes a bound `oldresults` with
an entry at every such position and, for matching keys, comparable
timestamps; otherwise it raises instead of filtering.) -/
theorem claim_C1 (oldR newR : ParseResult) (keys : List CanonKey)
    (hs : List Headline) (out : List (Option Headline)) (j : Nat) (h : Headline)
    (eo en : Entry)
    (hmk : markLoop (some oldR) newR keys 0 hs = Except.ok out)
    (hj : hs[j]? = some h)
    (heo : entryAt oldR j = Except.ok eo)
    (hen : entryAt newR j = Except.ok en) :
    out[j]? = some none ↔
      canonize h ∈ keys ∧
      pyGe (pyFirst eo.updated_parsed en.published_parsed)
           (pyFirst en.updated_parsed en.published_parsed) = Except.ok true := by
  obtain ⟨exc, hx, ho⟩ := markLoop_char (some oldR) newR keys hs 0 out hmk j h hj
  rw [zero_add] at hx
  simp only [excludedAt, heo, hen] at hx
  by_cases hmem : canonize h ∈ keys
  · rw [if_pos hmem] at hx
    constructor
    · intro hout
      rw [ho] at hout
      have : (if exc then none else some h : Option Headline) = none := by
        simpa using hout
      have hexc : exc = true := by
        cases exc
        · simp at this
        · rfl
      subst hexc
      exact ⟨hmem, hx⟩
    · rintro ⟨-, hge⟩
      have hexc : exc = true := by
        rw [hx] at hge
        simpa using hge.symm
      rw [ho, hexc]
      simp
  · rw [if_neg hmem] at hx
    have hexc : exc = false := by
      cases hx
      rfl
    subst hexc
    rw [ho]
    simp [hmem]

/-- Witness for `claim_C1` at a concrete input where the entry is
excluded: same canonical key, old `updated_parsed = 9`, new
`updated_parsed = 4`. -/
theorem claim_C1_witness :
    markLoop
        (some { items := [{ title := some "a", link := some "l",
                            updated_parsed := some 9, published_parsed := none }],
                entriesPresent := true, feedNonEmpty := true })
        { items := [{ title := some "a", link := some "l",
                      updated_parsed := some 4, published_parsed := none }],
          entriesPresent := true, feedNonEmpty := true }
        [(["a"], some "l")] 0 [("a", some "l")]
      = Except.ok [none]
  ∧ (([none] : List (Option Headline))[0]? = some none ↔
      canonize ("a", some "l") ∈ [(["a"], some "l")] ∧
      pyGe (pyFirst (some 9) none) (pyFirst (some 4) none) = Except.ok true) :=
  ⟨by decide,
   claim_C1
     { items := [{ title := some "a", link := some "l",
                   updated_parsed := some 9, published_parsed := none }],
       entriesPresent := true, feedNonEmpty := true }
     { items := [{ title := some "a", link := some "l",
                   updated_parsed := some 4, published_parsed := none }],
       entriesPresent := true, feedNonEmpty := true }
     [(["a"], some "l")] [("a", some "l")] [none] 0 ("a", some "l")
     { title := some "a", link := some "l", updated_parsed := some 9, published_parsed := none }
     { title := some "a", link := some "l", updated_parsed := some 4, published_parsed := none }
     (by decide) (by decide) (by decide) (by decide)⟩

/-- Helper for C8: if the finished flag stays unset up to iteration
`d + k`, the first `k` callback calls from `d` return normally and the
call at `d + k` raises, then the loop of `PeriodicExecutor.run`
started at iteration `d` ends by that exception propagating out, with
no further callback invocation. -/
lemma periodic_run_crash_aux (finished : Nat → Bool) (tick : Nat → TickOutcome) :
    ∀ (k fuel d : Nat),
      (∀ j, j ≤ k → finished (d + j) = false) →
      (∀ j, j < k → tick (d + j) = TickOutcome.ok) →
      tick (d + k) = TickOutcome.raises →
      k < fuel →
      PeriodicExecutor_run finished tick fuel d = RunOutcome.crashed (d + k) := by
  intro k
  induction k with
  | zero =>
    intro fuel d hfin htick hraise hfuel
    cases fuel with
    | zero => omega
    | succ m =>
      have h0 : finished d = false := by simpa using hfin 0 (by omega)
      have hr : tick d = TickOutcome.raises := by simpa using hraise
      simp [PeriodicExecutor_run, h0, hr]
  | succ n ih =>
    intro fuel d hfin htick hraise hfuel
    cases fuel with
    | zero => omega
    | succ m =>
      have h0 : finished d = false := by simpa using hfin 0 (by omega)
      have ht0 : tick d = TickOutcome.ok := by simpa using htick 0 (by omega)
      have hrec := ih m (d + 1)
        (fun j hj => by
          have := hfin (j + 1) (by omega)
          rwa [show d + (j + 1) = d + 1 + j by omega] at this)
        (fun j hj => by
          have := htick (j + 1) (by omega)
          rwa [show d + (j + 1) = d + 1 + j by omega] at this)
        (by rwa [show d + (n + 1) = d + 1 + n by omega] at hraise)
        (by omega)
      have harith : d + 1 + n = d + (n + 1) := by omega
      rw [harith] at hrec
      simp [PeriodicExecutor_run, h0, ht0, hrec]

/-- C8, counterexample.  The claim says an exception inside a feed's
poll processing is caught within the timer callback so the periodic
timer keeps firing on its next tick.  `PeriodicExecutor.run` has no
exception handling around `self._func(**self._params)`: with a
callback that raises on its first call (and would succeed afterwards)
the loop ends immediately with zero completed ticks — it does not fire
again. -/
theorem claim_C8_counterexample :
    PeriodicExecutor_run (fun _ => false)
        (fun j => if j = 0 then TickOutcome.raises else TickOutcome.ok) 5 0
      = RunOutcome.crashed 0 := by decide

/-- C8, amended: an unhandled exception raised by the timer callback
at iteration `k` propagates out of `PeriodicExecutor.run`, terminating
that feed's timer loop after exactly `k` completed ticks; no later
tick of that feed fires.  (Other feeds are unaffected only because
each enabled feed with an explicit refresh delay runs its own
`PeriodicExecutor` thread, not because the exception is caught.) -/
theorem claim_C8 (finished : Nat → Bool) (tick : Nat → TickOutcome) (fuel k : Nat)
    (hfin : ∀ j, j ≤ k → finished j = false)
    (htick : ∀ j, j < k → tick j = TickOutcome.ok)
    (hraise : tick k = TickOutcome.raises)
    (hfuel : k < fuel) :
    PeriodicExecutor_run finished tick fuel 0 = RunOutcome.crashed k := by
  have := periodic_run_crash_aux finished tick k fuel 0
    (fun j hj => by simpa using hfin j hj)
    (fun j hj => by simpa using htick j hj)
    (by simpa using hraise) hfuel
  simpa using this

/-- Witness for `claim_C8` at a concrete input: the callback succeeds
twice and raises on the third call; the loop crashes with two
completed ticks. -/
theorem claim_C8_witness :
    PeriodicExecutor_run (fun _ => false)
        (fun j => if j < 2 then TickOutcome.ok else TickOutcome.raises) 5 0
      = RunOutcome.crashed 2 :=
  claim_C8 (fun _ => false) (fun j => if j < 2 then TickOutcome.ok else TickOutcome.raises) 5 2
    (fun j _ => rfl)
    (fun j hj => by simp [hj])
    (by simp)
    (by norm_num)

/-- Helper for C10: `getHeadlines` on an item list is exactly the
in-order `filterMap` keeping one `(title, link-or-None)` pair per
titled item. -/
lemma getHeadlinesL_eq_filterMap (l : List Entry) :
    getHeadlinesL l = l.filterMap mkHeadline := by
  induction l with
  | nil => rfl
  | cons d rest ih =>
    cases hd : d.title <;>
      simp [getHeadlinesL, mkHeadline, hd, ih, List.filterMap_cons]

/-- C10: (1) for every parse result, `getHeadlines` returns, in order,
exactly one `(title, link)` pair per item that has a `title` field,
silently excluding untitled items (so an untitled entry is never
considered by the diff and never announced), and (2) the omission
shifts the positional index used to pair headlines with raw entries:
on a fetched result whose first item is untitled with link `L0` and
whose second item is titled `T` with link `L1`, the tick announces the
headline `T` paired with the raw entry link `L0` taken from
`newresults['entries'][0]`. -/
theorem claim_C10 :
    (∀ r : ParseResult, getHeadlines r = r.items.filterMap mkHeadline)
  ∧ feed_refresh true
        { cachedFeeds := some { items := [{ title := some "Old", link := some "http://old",
                                            updated_parsed := some 1, published_parsed := none }],
                                entriesPresent := true, feedNonEmpty := true },
          lastRequest := some 50 } 60
        { result := { items := [{ title := none, link := some "L0",
                                  updated_parsed := none, published_parsed := some 5 },
                                { title := some "T", link := some "L1",
                                  updated_parsed := none, published_parsed := some 6 }],
                      entriesPresent := true, feedNonEmpty := true },
          err := none }
      = Except.ok ([{ title := "T", rawLink := "L0" }],
          { cachedFeeds := some { items := [{ title := none, link := some "L0",
                                              updated_parsed := none, published_parsed := some 5 },
                                            { title := some "T", link := some "L1",
                                              updated_parsed := none, published_parsed := some 6 }],
                                  entriesPresent := true, feedNonEmpty := true },
            lastRequest := some 60 }) := by
  constructor
  · intro r
    exact getHeadlinesL_eq_filterMap r.items
  · decide
